import Mathlib

/-!
Verification of the typed API-client / response-normalization layer of the
mcp-server-gelato repository.

The definitions below are a shallow embedding of the Python source under
src/.  Pure computations (date normalisation, pagination arithmetic, message
assembly, pydantic field validation) become Lean functions; the outcome of a
Python call that may raise becomes a PyOutcome value; the outcome of the one
outbound HTTP call a tool makes is passed in explicitly as a PyOutcome value,
and each tool additionally reports whether that call was consulted, so that
"fails before any network call" is expressible.

Parts of the repository that the tools import but that are not present under
src/ (src/client/gelato_client.py, src/utils/exceptions.py,
src/models/common.py, and the product models SearchProductsRequest, Product,
ProductDetail, FilterHits, SearchProductsResponse in src/models/products.py)
are modelled from the specification; each such definition carries a doc
comment saying so.
-/

/-- A single quote character, used verbatim inside several messages of the
tool layer. -/
def sglq : String := String.mk [Char.ofNat 39]

/-! ### Python datetime embedding -/

/-- Embedding of a Python `datetime.datetime` value: calendar fields plus an
optional UTC offset in minutes (`none` models a naive datetime). -/
structure PyDateTime where
  year : Nat
  month : Nat
  day : Nat
  hour : Nat
  minute : Nat
  second : Nat
  tzOffsetMinutes : Option Int
deriving DecidableEq, Repr

/-- Numeric value of a decimal digit character. -/
def digitVal (c : Char) : Option Nat :=
  if c.isDigit then some (c.toNat - 48) else none

/-- Read exactly two decimal digits from the front of a character list. -/
def parse2 (l : List Char) : Option (Nat × List Char) :=
  match l with
  | a :: b :: t =>
    match digitVal a, digitVal b with
    | some x, some y => some (10 * x + y, t)
    | _, _ => none
  | _ => none

def isLeapYear (y : Nat) : Bool :=
  (y % 4 = 0 && y % 100 ≠ 0) || y % 400 = 0

def daysInMonth (y m : Nat) : Nat :=
  if m = 2 then (if isLeapYear y then 29 else 28)
  else if m = 4 || m = 6 || m = 9 || m = 11 then 30
  else 31

/-- Parse an optional trailing UTC offset `+HH:MM` or `-HH:MM`; an empty
remainder means a naive datetime. -/
def parseTZ (l : List Char) : Option (Option Int) :=
  match l with
  | [] => some none
  | '+' :: t =>
    match parse2 t with
    | some (h, ':' :: t2) =>
      match parse2 t2 with
      | some (mi, []) =>
        if h < 24 && mi < 60 then some (some ((h * 60 + mi : Nat) : Int)) else none
      | _ => none
    | _ => none
  | '-' :: t =>
    match parse2 t with
    | some (h, ':' :: t2) =>
      match parse2 t2 with
      | some (mi, []) =>
        if h < 24 && mi < 60 then some (some (-((h * 60 + mi : Nat) : Int))) else none
      | _ => none
    | _ => none
  | _ => none

/-- Parse a time `HH:MM[:SS]` followed by an optional UTC offset. -/
def parseTime (l : List Char) : Option (Nat × Nat × Nat × Option Int) :=
  match parse2 l with
  | some (h, ':' :: t2) =>
    match parse2 t2 with
    | some (mi, ':' :: t4) =>
      match parse2 t4 with
      | some (s, t5) =>
        match parseTZ t5 with
        | some tz => if h < 24 && mi < 60 && s < 60 then some (h, mi, s, tz) else none
        | none => none
      | none => none
    | some (mi, t3) =>
      match parseTZ t3 with
      | some tz => if h < 24 && mi < 60 then some (h, mi, 0, tz) else none
      | none => none
    | none => none
  | _ => none

/-- Embedding of Python `datetime.fromisoformat`: accepts
`YYYY-MM-DD[THH:MM[:SS][(+|-)HH:MM]]` (also a space as the separator) and
returns `none` where the Python function raises `ValueError`. -/
def fromisoformat (s : String) : Option PyDateTime :=
  match s.data with
  | y1 :: y2 :: y3 :: y4 :: '-' :: m1 :: m2 :: '-' :: d1 :: d2 :: rest =>
    match digitVal y1, digitVal y2, digitVal y3, digitVal y4 with
    | some a, some b, some c, some d =>
      let year := 1000 * a + 100 * b + 10 * c + d
      match parse2 [m1, m2], parse2 [d1, d2] with
      | some (mo, []), some (day, []) =>
        if 1 ≤ year && 1 ≤ mo && mo ≤ 12 && 1 ≤ day && day ≤ daysInMonth year mo then
          match rest with
          | [] => some ⟨year, mo, day, 0, 0, 0, none⟩
          | sep :: t =>
            if sep = 'T' || sep = ' ' then
              match parseTime t with
              | some (h, mi, s2, tz) => some ⟨year, mo, day, h, mi, s2, tz⟩
              | none => none
            else none
        else none
      | _, _ => none
    | _, _, _, _ => none
  | _ => none

/-- Embedding of the Python expression `s.replace(chr(90), "+00:00")` used by
`search_orders` to normalise a trailing `Z` before parsing (chr(90) is the
uppercase letter Z). -/
def replaceZ (s : String) : String :=
  String.mk (s.data.map (fun c => if c = 'Z' then "+00:00".data else [c])).flatten

/-- The date value `search_orders` derives from a date-filter argument
(src/src/tools/orders.py lines 68 and 80). -/
def parsedDate (s : String) : Option PyDateTime :=
  fromisoformat (replaceZ s)

/-! ### JSON-ish values (Python dicts produced by model_dump and consumed by
pydantic validation) -/

/-- A Python value as it appears in provider JSON bodies and in pydantic
`model_dump()` output (which keeps `datetime` objects as objects). -/
inductive JValue where
  | null
  | bool (b : Bool)
  | int (n : Int)
  | str (s : String)
  | dt (d : PyDateTime)
  | arr (items : List JValue)
  | obj (fields : List (String × JValue))

/-- Dictionary lookup on the field list of a `JValue.obj`. -/
def jlookup (l : List (String × JValue)) (k : String) : Option JValue :=
  match l with
  | [] => none
  | (k2, v) :: t => if k2 = k then some v else jlookup t k

/-- Validate every element of a list, failing if any element fails (pydantic
semantics for a typed list field). -/
def parseAll (g : JValue → Option α) : List JValue → Option (List α)
  | [] => some []
  | j :: t =>
    match g j with
    | none => none
    | some a =>
      match parseAll g t with
      | none => none
      | some r => some (a :: r)

def asStr : JValue → Option String
  | .str s => some s
  | _ => none

def asInt : JValue → Option Int
  | .int n => some n
  | _ => none

def asBool : JValue → Option Bool
  | .bool b => some b
  | _ => none

def asStrList : JValue → Option (List String)
  | .arr l => parseAll asStr l
  | _ => none

/-- Validate a pydantic `datetime` field: a `datetime` object is taken as is,
a string is parsed as ISO-8601 (pydantic accepts a trailing Z). -/
def asDT : JValue → Option PyDateTime
  | .dt d => some d
  | .str s => parsedDate s
  | _ => none

/-- A required pydantic field: the key must be present and validate. -/
def reqField (fields : List (String × JValue)) (k : String) (f : JValue → Option α) :
    Option α :=
  match jlookup fields k with
  | some v => f v
  | none => none

/-- Validation of an `Optional[...]` pydantic field value with default
`None`: a missing key or an explicit null gives `none`; a present value must
validate. -/
def JValue.isNull : JValue → Bool
  | .null => true
  | _ => false

def optVal (f : JValue → Option α) : Option JValue → Option (Option α)
  | none => some none
  | some v =>
    if v.isNull then some none
    else
      match f v with
      | some a => some (some a)
      | none => none

/-- An `Optional[...]` pydantic field with default `None`. -/
def optField (fields : List (String × JValue)) (k : String) (f : JValue → Option α) :
    Option (Option α) :=
  optVal f (jlookup fields k)

/-- A required list field with `default_factory=list`: a missing key gives the
empty list, a present value must be a list whose elements validate. -/
def listFieldD (fields : List (String × JValue)) (k : String) (f : JValue → Option α) :
    Option (List α) :=
  match jlookup fields k with
  | none => some []
  | some (.arr l) => parseAll f l
  | some _ => none

/-- Dump an optional field value (Python `None` becomes JSON null). -/
def jopt (f : α → JValue) : Option α → JValue
  | none => .null
  | some a => f a

/-- Dump a list of strings. -/
def jstrs (l : List String) : JValue := .arr (l.map .str)

/-! ### Domain model: common sub-documents (src/models/common.py is not under
src/; these are modelled from the specification) -/

/-- Modelled from the spec: `File` in src/models/common.py is not under src/.
The spec gives `type: string (default "default")` and `url: string
(required)`. -/
structure File where
  type : String
  url : String
deriving DecidableEq, Repr

def dumpFile (f : File) : JValue :=
  .obj [("type", .str f.type), ("url", .str f.url)]

def parseFile (j : JValue) : Option File :=
  match j with
  | .obj fields =>
    match jlookup fields "type", reqField fields "url" asStr with
    | none, some url => some { type := "default", url := url }
    | some (.str t), some url => some { type := t, url := url }
    | _, _ => none
  | _ => none

/-- Modelled from the spec: `Preview` in src/models/common.py is not under
src/. The spec treats it as an opaque structured pass-through sub-document, so
it is modelled as its field mapping. -/
structure Preview where
  fields : List (String × JValue)

def dumpPreview (p : Preview) : JValue := .obj p.fields

def parsePreview (j : JValue) : Option Preview :=
  match j with
  | .obj fields => some ⟨fields⟩
  | _ => none

/-- Modelled from the spec: `Receipt` in src/models/common.py is not under
src/; an opaque structured pass-through sub-document. -/
structure Receipt where
  fields : List (String × JValue)

def dumpReceipt (r : Receipt) : JValue := .obj r.fields

def parseReceipt (j : JValue) : Option Receipt :=
  match j with
  | .obj fields => some ⟨fields⟩
  | _ => none

/-- Modelled from the spec: `Shipment` in src/models/common.py is not under
src/; an opaque structured pass-through sub-document. -/
structure Shipment where
  fields : List (String × JValue)

def dumpShipment (s : Shipment) : JValue := .obj s.fields

def parseShipment (j : JValue) : Option Shipment :=
  match j with
  | .obj fields => some ⟨fields⟩
  | _ => none

/-- Modelled from the spec: `ShippingAddress` in src/models/common.py is not
under src/. The spec address family has required `addressLine1, city, state,
postCode, country, email`, optional `addressLine2, phone`, and
`ShippingAddress` adds first and last name. -/
structure ShippingAddress where
  firstName : String
  lastName : String
  addressLine1 : String
  addressLine2 : Option String
  city : String
  state : String
  postCode : String
  country : String
  email : String
  phone : Option String
deriving DecidableEq, Repr

def dumpShippingAddress (a : ShippingAddress) : JValue :=
  .obj [("firstName", .str a.firstName), ("lastName", .str a.lastName),
        ("addressLine1", .str a.addressLine1), ("addressLine2", jopt .str a.addressLine2),
        ("city", .str a.city), ("state", .str a.state), ("postCode", .str a.postCode),
        ("country", .str a.country), ("email", .str a.email), ("phone", jopt .str a.phone)]

def parseShippingAddress (j : JValue) : Option ShippingAddress :=
  match j with
  | .obj fields =>
    match reqField fields "firstName" asStr, reqField fields "lastName" asStr,
          reqField fields "addressLine1" asStr, optField fields "addressLine2" asStr,
          reqField fields "city" asStr, reqField fields "state" asStr,
          reqField fields "postCode" asStr, reqField fields "country" asStr,
          reqField fields "email" asStr, optField fields "phone" asStr with
    | some fn, some ln, some l1, some l2, some city, some st, some pc, some co,
      some em, some ph =>
      some { firstName := fn, lastName := ln, addressLine1 := l1, addressLine2 := l2,
             city := city, state := st, postCode := pc, country := co, email := em,
             phone := ph }
    | _, _, _, _, _, _, _, _, _, _ => none
  | _ => none

/-- Modelled from the spec: `BillingEntity` in src/models/common.py is not
under src/. It shares the address-family base required set
`addressLine1, city, postCode, country, email` with optional
`addressLine2, phone`. -/
structure BillingEntity where
  addressLine1 : String
  addressLine2 : Option String
  city : String
  postCode : String
  country : String
  email : String
  phone : Option String
deriving DecidableEq, Repr

def dumpBillingEntity (a : BillingEntity) : JValue :=
  .obj [("addressLine1", .str a.addressLine1), ("addressLine2", jopt .str a.addressLine2),
        ("city", .str a.city), ("postCode", .str a.postCode),
        ("country", .str a.country), ("email", .str a.email), ("phone", jopt .str a.phone)]

def parseBillingEntity (j : JValue) : Option BillingEntity :=
  match j with
  | .obj fields =>
    match reqField fields "addressLine1" asStr, optField fields "addressLine2" asStr,
          reqField fields "city" asStr, reqField fields "postCode" asStr,
          reqField fields "country" asStr, reqField fields "email" asStr,
          optField fields "phone" asStr with
    | some l1, some l2, some city, some pc, some co, some em, some ph =>
      some { addressLine1 := l1, addressLine2 := l2, city := city, postCode := pc,
             country := co, email := em, phone := ph }
    | _, _, _, _, _, _, _ => none
  | _ => none

/-- Modelled from the spec: `ReturnAddress` in src/models/common.py is not
under src/; same base field set as `BillingEntity`. -/
structure ReturnAddress where
  addressLine1 : String
  addressLine2 : Option String
  city : String
  postCode : String
  country : String
  email : String
  phone : Option String
deriving DecidableEq, Repr

def dumpReturnAddress (a : ReturnAddress) : JValue :=
  .obj [("addressLine1", .str a.addressLine1), ("addressLine2", jopt .str a.addressLine2),
        ("city", .str a.city), ("postCode", .str a.postCode),
        ("country", .str a.country), ("email", .str a.email), ("phone", jopt .str a.phone)]

def parseReturnAddress (j : JValue) : Option ReturnAddress :=
  match j with
  | .obj fields =>
    match reqField fields "addressLine1" asStr, optField fields "addressLine2" asStr,
          reqField fields "city" asStr, reqField fields "postCode" asStr,
          reqField fields "country" asStr, reqField fields "email" asStr,
          optField fields "phone" asStr with
    | some l1, some l2, some city, some pc, some co, some em, some ph =>
      some { addressLine1 := l1, addressLine2 := l2, city := city, postCode := pc,
             country := co, email := em, phone := ph }
    | _, _, _, _, _, _, _ => none
  | _ => none

/-! ### Domain model: orders (translated from src/src/models/orders.py) -/

/-- The `Literal["order", "draft"]` order type. -/
inductive OrderType where
  | order
  | draft
deriving DecidableEq, Repr

def dumpOrderType : OrderType → JValue
  | .order => .str "order"
  | .draft => .str "draft"

def parseOrderType (j : JValue) : Option OrderType :=
  match j with
  | .str "order" => some .order
  | .str "draft" => some .draft
  | _ => none

/-- `ItemOption` from src/src/models/orders.py: all fields required. -/
structure ItemOption where
  id : String
  type : String
  productUid : String
  quantity : Int
deriving DecidableEq, Repr

def dumpItemOption (o : ItemOption) : JValue :=
  .obj [("id", .str o.id), ("type", .str o.type),
        ("productUid", .str o.productUid), ("quantity", .int o.quantity)]

def parseItemOption (j : JValue) : Option ItemOption :=
  match j with
  | .obj fields =>
    match reqField fields "id" asStr, reqField fields "type" asStr,
          reqField fields "productUid" asStr, reqField fields "quantity" asInt with
    | some id, some ty, some pu, some q =>
      some { id := id, type := ty, productUid := pu, quantity := q }
    | _, _, _, _ => none
  | _ => none

/-- `OrderItem` from src/src/models/orders.py. -/
structure OrderItem where
  id : String
  itemReferenceId : String
  productUid : String
  files : List File
  processedFileUrl : Option String
  quantity : Int
  fulfillmentStatus : String
  previews : List Preview
  options : Option (List ItemOption)
  pageCount : Option Int

def dumpOrderItem (it : OrderItem) : JValue :=
  .obj [("id", .str it.id), ("itemReferenceId", .str it.itemReferenceId),
        ("productUid", .str it.productUid), ("files", .arr (it.files.map dumpFile)),
        ("processedFileUrl", jopt .str it.processedFileUrl),
        ("quantity", .int it.quantity),
        ("fulfillmentStatus", .str it.fulfillmentStatus),
        ("previews", .arr (it.previews.map dumpPreview)),
        ("options", jopt (fun l => .arr (l.map dumpItemOption)) it.options),
        ("pageCount", jopt .int it.pageCount)]

def asItemOptionList : JValue → Option (List ItemOption)
  | .arr l => parseAll parseItemOption l
  | _ => none

def parseOrderItem (j : JValue) : Option OrderItem :=
  match j with
  | .obj fields =>
    match reqField fields "id" asStr, reqField fields "itemReferenceId" asStr,
          reqField fields "productUid" asStr,
          reqField fields "files" (fun v => match v with
            | .arr l => parseAll parseFile l
            | _ => none),
          optField fields "processedFileUrl" asStr,
          reqField fields "quantity" asInt,
          reqField fields "fulfillmentStatus" asStr,
          listFieldD fields "previews" parsePreview,
          optField fields "options" asItemOptionList,
          optField fields "pageCount" asInt with
    | some id, some iref, some pu, some files, some pfu, some q, some fs,
      some prevs, some opts, some pc =>
      some { id := id, itemReferenceId := iref, productUid := pu, files := files,
             processedFileUrl := pfu, quantity := q, fulfillmentStatus := fs,
             previews := prevs, options := opts, pageCount := pc }
    | _, _, _, _, _, _, _, _, _, _ => none
  | _ => none

/-- `OrderSummary` from src/src/models/orders.py. -/
structure OrderSummary where
  id : String
  orderType : OrderType
  orderReferenceId : String
  customerReferenceId : String
  fulfillmentStatus : String
  financialStatus : String
  currency : Option String
  channel : Option String
  country : Option String
  firstName : Option String
  lastName : Option String
  itemsCount : Option Int
  totalInclVat : Option String
  storeId : Option String
  connectedOrderIds : List String
  createdAt : PyDateTime
  updatedAt : PyDateTime
  orderedAt : Option PyDateTime
deriving DecidableEq, Repr

def dumpOrderSummaryFields (o : OrderSummary) : List (String × JValue) :=
  [("id", .str o.id), ("orderType", dumpOrderType o.orderType),
   ("orderReferenceId", .str o.orderReferenceId),
   ("customerReferenceId", .str o.customerReferenceId),
   ("fulfillmentStatus", .str o.fulfillmentStatus),
   ("financialStatus", .str o.financialStatus),
   ("currency", jopt .str o.currency), ("channel", jopt .str o.channel),
   ("country", jopt .str o.country), ("firstName", jopt .str o.firstName),
   ("lastName", jopt .str o.lastName), ("itemsCount", jopt .int o.itemsCount),
   ("totalInclVat", jopt .str o.totalInclVat), ("storeId", jopt .str o.storeId),
   ("connectedOrderIds", jstrs o.connectedOrderIds),
   ("createdAt", .dt o.createdAt), ("updatedAt", .dt o.updatedAt),
   ("orderedAt", jopt .dt o.orderedAt)]

def dumpOrderSummary (o : OrderSummary) : JValue := .obj (dumpOrderSummaryFields o)

def parseOrderSummaryFields (fields : List (String × JValue)) : Option OrderSummary :=
  match reqField fields "id" asStr, reqField fields "orderType" parseOrderType,
        reqField fields "orderReferenceId" asStr,
        reqField fields "customerReferenceId" asStr,
        reqField fields "fulfillmentStatus" asStr,
        reqField fields "financialStatus" asStr,
        optField fields "currency" asStr, optField fields "channel" asStr,
        optField fields "country" asStr, optField fields "firstName" asStr,
        optField fields "lastName" asStr, optField fields "itemsCount" asInt,
        optField fields "totalInclVat" asStr, optField fields "storeId" asStr,
        listFieldD fields "connectedOrderIds" asStr,
        reqField fields "createdAt" asDT, reqField fields "updatedAt" asDT,
        optField fields "orderedAt" asDT with
  | some id, some ot, some orid, some crid, some fs, some fin, some cur, some ch,
    some co, some fn, some ln, some ic, some tiv, some sid, some coids, some ca,
    some ua, some oa =>
    some { id := id, orderType := ot, orderReferenceId := orid,
           customerReferenceId := crid, fulfillmentStatus := fs,
           financialStatus := fin, currency := cur, channel := ch, country := co,
           firstName := fn, lastName := ln, itemsCount := ic, totalInclVat := tiv,
           storeId := sid, connectedOrderIds := coids, createdAt := ca,
           updatedAt := ua, orderedAt := oa }
  | _, _, _, _, _, _, _, _, _, _, _, _, _, _, _, _, _, _ => none

def parseOrderSummary (j : JValue) : Option OrderSummary :=
  match j with
  | .obj fields => parseOrderSummaryFields fields
  | _ => none

/-- `OrderDetail` from src/src/models/orders.py: extends `OrderSummary`. -/
structure OrderDetail extends OrderSummary where
  items : List OrderItem
  shippingAddress : Option ShippingAddress
  billingEntity : Option BillingEntity
  returnAddress : Option ReturnAddress
  shipment : Option Shipment
  receipts : List Receipt

def dumpOrderDetail (o : OrderDetail) : JValue :=
  .obj (dumpOrderSummaryFields o.toOrderSummary ++
    [("items", .arr (o.items.map dumpOrderItem)),
     ("shippingAddress", jopt dumpShippingAddress o.shippingAddress),
     ("billingEntity", jopt dumpBillingEntity o.billingEntity),
     ("returnAddress", jopt dumpReturnAddress o.returnAddress),
     ("shipment", jopt dumpShipment o.shipment),
     ("receipts", .arr (o.receipts.map dumpReceipt))])

def parseOrderDetail (j : JValue) : Option OrderDetail :=
  match j with
  | .obj fields =>
    match parseOrderSummaryFields fields,
          reqField fields "items" (fun v => match v with
            | .arr l => parseAll parseOrderItem l
            | _ => none),
          optField fields "shippingAddress" parseShippingAddress,
          optField fields "billingEntity" parseBillingEntity,
          optField fields "returnAddress" parseReturnAddress,
          optField fields "shipment" parseShipment,
          listFieldD fields "receipts" parseReceipt with
    | some summary, some items, some sa, some be, some ra, some sh, some rc =>
      some { toOrderSummary := summary, items := items, shippingAddress := sa,
             billingEntity := be, returnAddress := ra, shipment := sh,
             receipts := rc }
    | _, _, _, _, _, _, _ => none
  | _ => none

/-- `SearchOrdersParams` from src/src/models/orders.py: all filter fields
optional; `limit` carries only the pydantic bound `le=100` and `offset` the
bound `ge=0`. -/
structure SearchOrdersParams where
  channels : Option (List String)
  countries : Option (List String)
  currencies : Option (List String)
  endDate : Option PyDateTime
  financialStatuses : Option (List String)
  fulfillmentStatuses : Option (List String)
  ids : Option (List String)
  limit : Option Int
  offset : Option Int
  orderReferenceId : Option String
  orderReferenceIds : Option (List String)
  orderTypes : Option (List OrderType)
  search : Option String
  startDate : Option PyDateTime
  storeIds : Option (List String)
deriving DecidableEq, Repr

/-- Field validation of `SearchOrdersParams` as declared in the source:
`limit` is checked against `le=100` and `offset` against `ge=0`, and no other
constraint is declared (in particular no lower bound on `limit`). -/
def searchOrdersParamsValid (limit offset : Option Int) : Bool :=
  (match limit with
   | none => true
   | some l => l ≤ 100) &&
  (match offset with
   | none => true
   | some o => 0 ≤ o)

/-- Constructing a `SearchOrdersParams` as the `search_orders` tool does
(src/src/tools/orders.py lines 91-105): pydantic validation failure is a
`none` result. The tool never passes `ids` or `orderReferenceId`, which keep
their defaults. -/
def mkSearchOrdersParams
    (orderTypes : Option (List OrderType))
    (countries currencies financialStatuses fulfillmentStatuses : Option (List String))
    (search : Option String)
    (startDate endDate : Option PyDateTime)
    (limit offset : Int)
    (orderReferenceIds storeIds channels : Option (List String)) :
    Option SearchOrdersParams :=
  if searchOrdersParamsValid (some limit) (some offset) then
    some { channels := channels, countries := countries, currencies := currencies,
           endDate := endDate, financialStatuses := financialStatuses,
           fulfillmentStatuses := fulfillmentStatuses, ids := none,
           limit := some limit, offset := some offset, orderReferenceId := none,
           orderReferenceIds := orderReferenceIds, orderTypes := orderTypes,
           search := search, startDate := startDate, storeIds := storeIds }
  else none

/-- `SearchOrdersResponse` from src/src/models/orders.py. -/
structure SearchOrdersResponse where
  orders : List OrderSummary
deriving DecidableEq, Repr

/-! ### Domain model: products (Catalog is translated from
src/src/models/products.py; the remaining product models are imported by the
tools and tests but are not under src/, so they are modelled from the
specification) -/

/-- `Catalog` from src/src/models/products.py: two required plain `str`
fields with no further constraint declared. -/
structure Catalog where
  catalogUid : String
  title : String
deriving DecidableEq, Repr

/-- Constructing a `Catalog` from keyword arguments as in the unit tests:
pydantic only requires both `str` fields to be present (the source declares
no length constraint), so any present pair of strings validates. -/
def mkCatalog (catalogUid title : Option String) : Option Catalog :=
  match catalogUid, title with
  | some c, some t => some { catalogUid := c, title := t }
  | _, _ => none

/-- Modelled from the spec: `Product` (src/models/products.py in the
repository does not contain it). `weight` accepts either a structured
sub-object or an arbitrary scalar, `dimensions` is optional and equally
flexible. -/
structure Product where
  productUid : String
  attributes : List (String × String)
  weight : JValue
  dimensions : Option JValue
  supportedCountries : List String

def dumpStrPairs (l : List (String × String)) : JValue :=
  .obj (l.map (fun p => (p.1, .str p.2)))

def dumpProduct (p : Product) : JValue :=
  .obj [("productUid", .str p.productUid),
        ("attributes", dumpStrPairs p.attributes),
        ("weight", p.weight),
        ("dimensions", jopt id p.dimensions),
        ("supportedCountries", jstrs p.supportedCountries)]

/-- Modelled from the spec: `ProductDetail` (not under src/): all `Product`
fields plus `notSupportedCountries`, stockability flags and optional
`validPageCounts`; `weight` and `dimensions` remain flexible (never coerced,
never rejected). -/
structure ProductDetail where
  productUid : String
  attributes : List (String × String)
  weight : JValue
  dimensions : Option JValue
  supportedCountries : List String
  notSupportedCountries : List String
  isStockable : Option Bool
  isPrintable : Option Bool
  validPageCounts : Option (List Int)

def dumpProductDetail (p : ProductDetail) : JValue :=
  .obj [("productUid", .str p.productUid),
        ("attributes", dumpStrPairs p.attributes),
        ("weight", p.weight),
        ("supportedCountries", jstrs p.supportedCountries),
        ("notSupportedCountries", jstrs p.notSupportedCountries),
        ("isStockable", jopt .bool p.isStockable),
        ("isPrintable", jopt .bool p.isPrintable),
        ("validPageCounts", jopt (fun l => .arr (l.map .int)) p.validPageCounts),
        ("dimensions", jopt id p.dimensions)]

/-- Validate a mapping of strings to strings (pydantic
`Dict[str, str]`). -/
def parseStrPairs : List (String × JValue) → Option (List (String × String))
  | [] => some []
  | (k, .str v) :: t =>
    match parseStrPairs t with
    | some r => some ((k, v) :: r)
    | none => none
  | _ => none

def asStrPairs : JValue → Option (List (String × String))
  | .obj l => parseStrPairs l
  | _ => none

def asIntList : JValue → Option (List Int)
  | .arr l => parseAll asInt l
  | _ => none

/-- Modelled from the spec: deserialising a provider response body into a
`ProductDetail`; the flexible `weight` field accepts any value verbatim and
`dimensions` is optional and kept verbatim. -/
def parseProductDetail (j : JValue) : Option ProductDetail :=
  match j with
  | .obj fields =>
    match reqField fields "productUid" asStr,
          reqField fields "attributes" asStrPairs,
          jlookup fields "weight",
          reqField fields "supportedCountries" asStrList,
          reqField fields "notSupportedCountries" asStrList,
          optField fields "isStockable" asBool,
          optField fields "isPrintable" asBool,
          optField fields "validPageCounts" asIntList,
          optField fields "dimensions" some with
    | some pu, some attrs, some w, some sup, some nsup, some stock, some pr,
      some vpc, some dims =>
      some { productUid := pu, attributes := attrs, weight := w,
             dimensions := dims, supportedCountries := sup,
             notSupportedCountries := nsup, isStockable := stock,
             isPrintable := pr, validPageCounts := vpc }
    | _, _, _, _, _, _, _, _, _ => none
  | _ => none

/-- Modelled from the spec: `FilterHits` (not under src/):
mapping of attribute name to mapping of value name to match count. -/
structure FilterHits where
  attributeHits : List (String × List (String × Int))

def dumpFilterHits (h : FilterHits) : JValue :=
  .obj [("attributeHits",
         .obj (h.attributeHits.map (fun p =>
           (p.1, .obj (p.2.map (fun q => (q.1, .int q.2)))))))]

/-- Modelled from the spec: `SearchProductsRequest` (not under src/):
optional attribute filters plus `limit` (default 50, cap 100) and `offset`
(default 0, floor 0). -/
structure SearchProductsRequest where
  attributeFilters : Option (List (String × List String))
  limit : Int
  offset : Int

/-- Modelled from the spec: validation-on-construction for
`SearchProductsRequest` (cap 100 on limit, floor 0 on offset). -/
def mkSearchProductsRequest (attributeFilters : Option (List (String × List String)))
    (limit offset : Int) : Option SearchProductsRequest :=
  if limit ≤ 100 && 0 ≤ offset then
    some { attributeFilters := attributeFilters, limit := limit, offset := offset }
  else none

/-- Modelled from the spec: `SearchProductsResponse` (not under src/):
products plus filter hits. -/
structure SearchProductsResponse where
  products : List Product
  hits : FilterHits

/-! ### Error taxonomy and Python call outcomes (src/utils/exceptions.py and
src/client/gelato_client.py are not under src/; modelled from the
specification) -/

/-- Modelled from the spec: which class of the exception hierarchy a raised
`GelatoAPIError` value belongs to. -/
inductive APIErrorKind where
  | generic
  | authentication
  | catalogNotFound
  | orderNotFound
  | productNotFound
deriving DecidableEq, Repr

/-- Modelled from the spec: a raised `GelatoAPIError` (or subclass) carries a
message, an optional HTTP status code and the raw response body. -/
structure GelatoAPIError where
  kind : APIErrorKind
  message : String
  status_code : Option Int
  response_data : List (String × String)
deriving DecidableEq, Repr

/-- Modelled from the spec: `OrderNotFoundError` - a 404 from the provider on
a `getOrder` lookup, echoing the order id, with status code 404. -/
def orderNotFoundError (order_id : String) : GelatoAPIError :=
  { kind := .orderNotFound, message := "Order not found: " ++ order_id,
    status_code := some 404, response_data := [] }

/-- Modelled from the spec: `CatalogNotFoundError` - a 404 from the provider
on a catalog-specific lookup. -/
def catalogNotFoundError (catalog_uid : String) : GelatoAPIError :=
  { kind := .catalogNotFound, message := "Catalog not found: " ++ catalog_uid,
    status_code := some 404, response_data := [] }

/-- Modelled from the spec: `ProductNotFoundError` - a 404 from the provider
on a `getProduct` lookup. -/
def productNotFoundError (product_uid : String) : GelatoAPIError :=
  { kind := .productNotFound, message := "Product not found: " ++ product_uid,
    status_code := some 404, response_data := [] }

/-- Modelled from the spec: the API client error classification for
`getOrder` (src/client/gelato_client.py is not under src/) - a 404 status
maps to `OrderNotFoundError` carrying the order id, any other failing status
to a plain `GelatoAPIError` with the status and body. -/
def getOrderErrorFor (order_id : String) (status : Int)
    (body : List (String × String)) : GelatoAPIError :=
  if status = 404 then orderNotFoundError order_id
  else { kind := .generic, message := "Gelato API error", status_code := some status,
         response_data := body }

/-- An exception a Python call can raise at the tool layer: a
`GelatoAPIError` (or subclass), a pydantic `ValidationError`, or any other
unexpected exception. -/
inductive PyException where
  | api (e : GelatoAPIError)
  | validation (message : String)
  | other (message : String)
deriving DecidableEq, Repr

/-- Python `str(e)` on an exception value. -/
def PyException.text : PyException → String
  | .api e => e.message
  | .validation m => m
  | .other m => m

/-- The outcome of running a Python expression: either a value or a raised
exception. -/
inductive PyOutcome (α : Type) where
  | returns (a : α)
  | raises (e : PyException)

/-! ### Response envelopes (the shapes of the dicts the tools return) -/

/-- The pagination block every search success envelope carries. -/
structure Pagination where
  count : Nat
  offset : Int
  limit : Int
  has_more : Bool
deriving DecidableEq, Repr

/-- The `error` object of a failure envelope; keys a given operation does not
set stay `none` (a Python dict simply lacking the key). -/
structure ErrorInfo where
  message : String
  operation : String
  status_code : Option Int := none
  response_data : Option (List (String × String)) := none
  order_id : Option String := none
  catalog_uid : Option String := none
  product_uid : Option String := none
deriving DecidableEq, Repr

/-- The `data` object of a `search_orders` success envelope. -/
structure SearchOrdersData where
  orders : List JValue
  pagination : Pagination
  search_params : SearchOrdersParams

/-- The dict returned by `search_orders`: either a success envelope
(`success: True` with data and message) or a failure envelope
(`success: False` with an error object). -/
inductive SearchOrdersEnvelope where
  | ok (data : SearchOrdersData) (message : String)
  | err (e : ErrorInfo)

/-- The `data` object of a `search_products` success envelope. -/
structure SearchProductsData where
  products : List JValue
  hits : JValue
  pagination : Pagination
  catalog_uid : String
  attribute_filters : Option (List (String × List String))
  limit : Int
  offset : Int

/-- The dict returned by `search_products`. -/
inductive SearchProductsEnvelope where
  | ok (data : SearchProductsData) (message : String)
  | err (e : ErrorInfo)

/-- The dict returned by `get_order_summary`. -/
inductive GetOrderEnvelope where
  | ok (data : JValue) (message : String)
  | err (e : ErrorInfo)

/-- The dict returned by `get_product`. -/
inductive GetProductEnvelope where
  | ok (data : JValue) (message : String)
  | err (e : ErrorInfo)

/-! ### Tool embeddings (src/src/tools/orders.py and
src/src/tools/products.py)

Each tool takes the outcome of the one client call it can make as an
explicit argument and returns, besides its own outcome, whether that client
call was actually issued. -/

/-- The date-argument handling block of `search_orders`
(src/src/tools/orders.py lines 66-88): `if start_date:` is Python truthiness,
so a missing argument and an empty string are both skipped; a non-empty
string is normalised (`Z` to `+00:00`) and parsed, and a parse failure
produces the local failure envelope naming the field and the expected
format. -/
def parseDateArg (field fmtExample : String) (v : Option String) :
    Except ErrorInfo (Option PyDateTime) :=
  match v with
  | none => .ok none
  | some s =>
    if s = "" then .ok none
    else
      match parsedDate s with
      | some d => .ok (some d)
      | none => .error { message := "Invalid " ++ field ++ " format: " ++ s ++
                           ". Use ISO 8601 format like " ++ sglq ++ fmtExample ++ sglq,
                         operation := "search_orders" }

/-- The `search_orders` tool (src/src/tools/orders.py lines 17-146).
`client` is the outcome `await client.search_orders(search_params)` would
have; the second component of the result records whether that call was
issued. Only `GelatoAPIError` is caught: a pydantic `ValidationError` from
`SearchOrdersParams` or any unexpected exception from the client propagates
out of the tool. -/
def searchOrders
    (client : PyOutcome SearchOrdersResponse)
    (order_types : Option (List OrderType))
    (countries currencies financial_statuses fulfillment_statuses : Option (List String))
    (search_text : Option String)
    (start_date end_date : Option String)
    (limit offset : Int)
    (order_reference_ids store_ids channels : Option (List String)) :
    PyOutcome SearchOrdersEnvelope × Bool :=
  match parseDateArg "start_date" "2024-01-01T00:00:00Z" start_date with
  | .error e => (.returns (.err e), false)
  | .ok parsedStart =>
  match parseDateArg "end_date" "2024-12-31T23:59:59Z" end_date with
  | .error e => (.returns (.err e), false)
  | .ok parsedEnd =>
  match mkSearchOrdersParams order_types countries currencies financial_statuses
      fulfillment_statuses search_text parsedStart parsedEnd limit offset
      order_reference_ids store_ids channels with
  | none => (.raises (.validation "validation error for SearchOrdersParams"), false)
  | some search_params =>
  match client with
  | .raises (.api e) =>
    (.returns (.err { message := e.message, operation := "search_orders",
                      status_code := e.status_code,
                      response_data := some e.response_data }), true)
  | .raises e => (.raises e, true)
  | .returns result =>
    let orders_data := result.orders.map dumpOrderSummary
    let count := orders_data.length
    let message :=
      if count = 0 then "No orders found matching the search criteria"
      else if (count : Int) = limit then
        "Found " ++ Nat.repr count ++
          " orders (may have more results, use offset=" ++ toString (offset + limit) ++
          " to get next page)"
      else "Found " ++ Nat.repr count ++ " orders matching the search criteria"
    (.returns (.ok { orders := orders_data,
                     pagination := { count := count, offset := offset, limit := limit,
                                     has_more := ((count : Int) == limit) },
                     search_params := search_params } message), true)

/-- The `get_order_summary` tool (src/src/tools/orders.py lines 148-182):
only `GelatoAPIError` is caught; any other exception propagates. -/
def getOrderSummary (client : PyOutcome OrderDetail) (order_id : String) :
    PyOutcome GetOrderEnvelope :=
  match client with
  | .returns order =>
    .returns (.ok (dumpOrderDetail order)
      ("Retrieved order " ++ order_id ++ " successfully"))
  | .raises (.api e) =>
    .returns (.err { message := e.message,
                     operation := "get_order_summary for order " ++ order_id,
                     order_id := some order_id, status_code := e.status_code,
                     response_data := some e.response_data })
  | .raises e => .raises e

/-- Python truthiness of the `attribute_filters` argument (`if
attribute_filters:` in the source): absent and the empty dict are falsy. -/
def filtersTruthy : Option (List (String × List String)) → Bool
  | none => false
  | some l => !l.isEmpty

/-- The `search_products` tool (src/src/tools/products.py lines 15-189):
`limit` and `offset` are validated locally before the client call, and the
outermost handler converts any unexpected exception into a generic failure
envelope. -/
def searchProducts
    (client : PyOutcome SearchProductsResponse)
    (catalog_uid : String)
    (attribute_filters : Option (List (String × List String)))
    (limit offset : Int) :
    PyOutcome SearchProductsEnvelope × Bool :=
  if limit < 1 || limit > 100 then
    (.returns (.err { message := "Invalid limit: " ++ toString limit ++
                        ". Must be between 1 and 100.",
                      operation := "search_products",
                      catalog_uid := some catalog_uid }), false)
  else if offset < 0 then
    (.returns (.err { message := "Invalid offset: " ++ toString offset ++
                        ". Must be 0 or greater.",
                      operation := "search_products",
                      catalog_uid := some catalog_uid }), false)
  else
    match mkSearchProductsRequest attribute_filters limit offset with
    | none =>
      (.returns (.err { message := "Unexpected error searching products: " ++
                          "validation error for SearchProductsRequest",
                        operation := "search_products",
                        catalog_uid := some catalog_uid }), false)
    | some _search_request =>
    match client with
    | .raises (.api e) =>
      match e.kind with
      | .catalogNotFound =>
        (.returns (.err { message := e.message, operation := "search_products",
                          catalog_uid := some catalog_uid,
                          status_code := e.status_code }), true)
      | _ =>
        (.returns (.err { message := e.message, operation := "search_products",
                          catalog_uid := some catalog_uid,
                          status_code := e.status_code,
                          response_data := some e.response_data }), true)
    | .raises e =>
      (.returns (.err { message := "Unexpected error searching products: " ++ e.text,
                        operation := "search_products",
                        catalog_uid := some catalog_uid }), true)
    | .returns result =>
      let products_data := result.products.map dumpProduct
      let hits_data := dumpFilterHits result.hits
      let count := products_data.length
      let message :=
        if count = 0 then
          if filtersTruthy attribute_filters then
            "No products found in catalog " ++ sglq ++ catalog_uid ++ sglq ++
              " matching the specified filters"
          else "No products found in catalog " ++ sglq ++ catalog_uid ++ sglq
        else if (count : Int) = limit then
          "Found " ++ Nat.repr count ++ " products in catalog " ++ sglq ++
            catalog_uid ++ sglq ++ " (may have more results, use offset=" ++
            toString (offset + limit) ++ " to get next page)"
        else
          "Found " ++ Nat.repr count ++ " products in catalog " ++ sglq ++
            catalog_uid ++ sglq
      (.returns (.ok { products := products_data, hits := hits_data,
                       pagination := { count := count, offset := offset,
                                       limit := limit,
                                       has_more := ((count : Int) == limit) },
                       catalog_uid := catalog_uid,
                       attribute_filters := attribute_filters,
                       limit := limit, offset := offset } message), true)

/-- The `get_product` tool (src/src/tools/products.py lines 191-292): catches
`ProductNotFoundError`, then `GelatoAPIError`, then any exception. -/
def getProduct (client : PyOutcome ProductDetail) (product_uid : String) :
    PyOutcome GetProductEnvelope :=
  match client with
  | .returns product =>
    .returns (.ok (dumpProductDetail product)
      ("Successfully retrieved product " ++ sglq ++ product_uid ++ sglq))
  | .raises (.api e) =>
    match e.kind with
    | .productNotFound =>
      .returns (.err { message := e.message, operation := "get_product",
                       product_uid := some product_uid,
                       status_code := e.status_code })
    | _ =>
      .returns (.err { message := e.message, operation := "get_product",
                       product_uid := some product_uid,
                       status_code := e.status_code,
                       response_data := some e.response_data })
  | .raises e =>
    .returns (.err { message := "Unexpected error retrieving product: " ++ e.text,
                     operation := "get_product",
                     product_uid := some product_uid })

/-! ### Substring containment and digit-character lemmas -/

/-- The Python `needle in hay` substring test, as a proposition on the
character lists of the two strings. -/
def containsSub (hay needle : String) : Prop :=
  needle.data <:+: hay.data

instance (hay needle : String) : Decidable (containsSub hay needle) :=
  inferInstanceAs (Decidable (needle.data <:+: hay.data))

theorem containsSub_intro (hay needle : String) (pre post : List Char)
    (h : hay.data = pre ++ (needle.data ++ post)) : containsSub hay needle :=
  ⟨pre, post, by rw [List.append_assoc, h]⟩

theorem not_containsSub (hay needle : String) (h1 : '=' ∈ needle.data)
    (h2 : '=' ∉ hay.data) : ¬ containsSub hay needle :=
  fun hin => h2 (hin.subset h1)

theorem eq_mem_needle (t : String) : '=' ∈ ("offset=" ++ t).data := by
  rw [String.data_append]
  exact List.mem_append.mpr (Or.inl (by decide))

theorem digitChar_mod_ne_eq (n : Nat) : Nat.digitChar (n % 10) ≠ '=' := by
  have h : n % 10 < 10 := Nat.mod_lt _ (by decide)
  set d := n % 10 with hd
  interval_cases d <;> decide

theorem toDigitsCore_eq_not_mem :
    ∀ (fuel n : Nat) (acc : List Char), '=' ∉ acc →
      '=' ∉ Nat.toDigitsCore 10 fuel n acc := by
  intro fuel
  induction fuel with
  | zero => intro n acc h; simpa [Nat.toDigitsCore] using h
  | succ f ih =>
    intro n acc h
    simp only [Nat.toDigitsCore]
    split
    · intro hm
      rcases List.mem_cons.mp hm with h1 | h1
      · exact digitChar_mod_ne_eq n h1.symm
      · exact h h1
    · apply ih
      intro hm
      rcases List.mem_cons.mp hm with h1 | h1
      · exact digitChar_mod_ne_eq n h1.symm
      · exact h h1

/-- The decimal representation of a natural number never contains the
equals-sign character. -/
theorem eq_not_mem_natRepr (n : Nat) : '=' ∉ (Nat.repr n).data := by
  have h : (Nat.repr n).data = Nat.toDigits 10 n := rfl
  rw [h]
  exact toDigitsCore_eq_not_mem _ _ _ (by simp)

/-! ### Projections on tool outcomes, used to state concrete facts about
envelopes without destructuring in theorem statements -/

def soEnvSuccess : PyOutcome SearchOrdersEnvelope → Bool
  | .returns (.ok _ _) => true
  | _ => false

def soEnvHasMore : PyOutcome SearchOrdersEnvelope → Option Bool
  | .returns (.ok d _) => some d.pagination.has_more
  | _ => none

def soEnvMessage : PyOutcome SearchOrdersEnvelope → Option String
  | .returns (.ok _ m) => some m
  | _ => none

def spEnvHasMore : PyOutcome SearchProductsEnvelope → Option Bool
  | .returns (.ok d _) => some d.pagination.has_more
  | _ => none

def spEnvMessage : PyOutcome SearchProductsEnvelope → Option String
  | .returns (.ok _ m) => some m
  | _ => none

def gpEnvData : PyOutcome GetProductEnvelope → Option JValue
  | .returns (.ok d _) => some d
  | _ => none

/-- Key lookup on a dumped object. -/
def jvField (j : JValue) (k : String) : Option JValue :=
  match j with
  | .obj l => jlookup l k
  | _ => none

/-! ### Date normalisation lemmas -/

theorem replaceZ_append (a b : String) :
    replaceZ (a ++ b) = replaceZ a ++ replaceZ b := by
  have h : ((a ++ b).data.map (fun c => if c = 'Z' then "+00:00".data else [c])).flatten
      = (a.data.map (fun c => if c = 'Z' then "+00:00".data else [c])).flatten ++
        (b.data.map (fun c => if c = 'Z' then "+00:00".data else [c])).flatten := by
    rw [String.data_append, List.map_append, List.flatten_append]
  show String.mk _ = String.mk _
  rw [h]

theorem replaceZ_zsuffix : replaceZ "Z" = "+00:00" := rfl

theorem replaceZ_utcsuffix : replaceZ "+00:00" = "+00:00" := rfl

/-- Appending a character to a string never yields the empty string. -/
theorem append_singleton_ne_empty (s t : String) (h : t.data ≠ []) : s ++ t ≠ "" := by
  intro he
  apply h
  have hd : (s ++ t).data = ("" : String).data := by rw [he]
  rw [String.data_append] at hd
  rcases List.append_eq_nil.mp hd with ⟨_, h2⟩
  exact h2

/-! ### Round-trip lemmas: pydantic re-validation of model_dump output -/

theorem parseAll_map {α} (g : JValue → Option α) (f : α → JValue)
    (h : ∀ x, g (f x) = some x) : ∀ l : List α, parseAll g (l.map f) = some l := by
  intro l
  induction l with
  | nil => rfl
  | cons a t ih => simp [parseAll, h a, ih]

theorem parseAll_str (l : List String) : parseAll asStr (l.map JValue.str) = some l :=
  parseAll_map asStr JValue.str (fun _ => rfl) l

theorem parseStrPairs_map : ∀ l : List (String × String),
    parseStrPairs (l.map (fun p => (p.1, JValue.str p.2))) = some l := by
  intro l
  induction l with
  | nil => rfl
  | cons a t ih => cases a; simp [parseStrPairs, ih]

theorem parseFile_dump (f : File) : parseFile (dumpFile f) = some f := by
  cases f; rfl

theorem parsePreview_dump (p : Preview) : parsePreview (dumpPreview p) = some p := by
  cases p; rfl

theorem parseReceipt_dump (r : Receipt) : parseReceipt (dumpReceipt r) = some r := by
  cases r; rfl

theorem parseShipment_dump (s : Shipment) : parseShipment (dumpShipment s) = some s := by
  cases s; rfl

theorem parseOrderType_dump (t : OrderType) : parseOrderType (dumpOrderType t) = some t := by
  cases t <;> rfl

theorem optVal_some_notnull {α} (f : JValue → Option α) (v : JValue)
    (h : v.isNull = false) (a : α) (hf : f v = some a) :
    optVal f (some v) = some (some a) := by
  simp [optVal, h, hf]

theorem optVal_str (x : Option String) : optVal asStr (some (jopt JValue.str x)) = some x := by
  cases x <;> rfl

theorem optVal_int (x : Option Int) : optVal asInt (some (jopt JValue.int x)) = some x := by
  cases x <;> rfl

theorem optVal_bool (x : Option Bool) : optVal asBool (some (jopt JValue.bool x)) = some x := by
  cases x <;> rfl

theorem optVal_dt (x : Option PyDateTime) : optVal asDT (some (jopt JValue.dt x)) = some x := by
  cases x <;> rfl

theorem parseItemOption_dump (o : ItemOption) :
    parseItemOption (dumpItemOption o) = some o := by
  cases o; rfl

theorem optVal_itemOptions (x : Option (List ItemOption)) :
    optVal asItemOptionList (some (jopt (fun l => .arr (l.map dumpItemOption)) x))
      = some x := by
  cases x with
  | none => rfl
  | some a =>
    simp [optVal, jopt, JValue.isNull, asItemOptionList,
      parseAll_map parseItemOption dumpItemOption parseItemOption_dump]

theorem parseShippingAddress_dump (a : ShippingAddress) :
    parseShippingAddress (dumpShippingAddress a) = some a := by
  cases a
  simp [parseShippingAddress, dumpShippingAddress, reqField, optField, jlookup,
        asStr, optVal_str]

theorem parseBillingEntity_dump (a : BillingEntity) :
    parseBillingEntity (dumpBillingEntity a) = some a := by
  cases a
  simp [parseBillingEntity, dumpBillingEntity, reqField, optField, jlookup,
        asStr, optVal_str]

theorem parseReturnAddress_dump (a : ReturnAddress) :
    parseReturnAddress (dumpReturnAddress a) = some a := by
  cases a
  simp [parseReturnAddress, dumpReturnAddress, reqField, optField, jlookup,
        asStr, optVal_str]

theorem optVal_shippingAddress (x : Option ShippingAddress) :
    optVal parseShippingAddress (some (jopt dumpShippingAddress x)) = some x := by
  cases x with
  | none => rfl
  | some a =>
    exact optVal_some_notnull _ _ (by cases a; rfl) _ (parseShippingAddress_dump a)

theorem optVal_billingEntity (x : Option BillingEntity) :
    optVal parseBillingEntity (some (jopt dumpBillingEntity x)) = some x := by
  cases x with
  | none => rfl
  | some a =>
    exact optVal_some_notnull _ _ (by cases a; rfl) _ (parseBillingEntity_dump a)

theorem optVal_returnAddress (x : Option ReturnAddress) :
    optVal parseReturnAddress (some (jopt dumpReturnAddress x)) = some x := by
  cases x with
  | none => rfl
  | some a =>
    exact optVal_some_notnull _ _ (by cases a; rfl) _ (parseReturnAddress_dump a)

theorem optVal_shipment (x : Option Shipment) :
    optVal parseShipment (some (jopt dumpShipment x)) = some x := by
  cases x with
  | none => rfl
  | some a =>
    exact optVal_some_notnull _ _ (by cases a; rfl) _ (parseShipment_dump a)

theorem parseOrderItem_dump (it : OrderItem) :
    parseOrderItem (dumpOrderItem it) = some it := by
  cases it
  simp [parseOrderItem, dumpOrderItem, reqField, optField, listFieldD, jlookup,
        asStr, asInt, optVal_str, optVal_int, optVal_itemOptions,
        parseAll_map parseFile dumpFile parseFile_dump,
        parseAll_map parsePreview dumpPreview parsePreview_dump]

theorem parseOrderSummaryFields_dump (o : OrderSummary) :
    parseOrderSummaryFields (dumpOrderSummaryFields o) = some o := by
  cases o
  simp [parseOrderSummaryFields, dumpOrderSummaryFields, reqField, optField,
        listFieldD, jlookup, jstrs, asStr, asInt, asDT, parseOrderType_dump,
        optVal_str, optVal_int, optVal_dt, parseAll_str]

theorem parseOrderDetail_dump (o : OrderDetail) :
    parseOrderDetail (dumpOrderDetail o) = some o := by
  obtain ⟨s, items, sa, be, ra, sh, rc⟩ := o
  cases s
  simp [parseOrderDetail, dumpOrderDetail, dumpOrderSummaryFields,
        parseOrderSummaryFields, reqField, optField, listFieldD, jlookup, jstrs,
        asStr, asInt, asDT, parseOrderType_dump, optVal_str, optVal_int, optVal_dt,
        parseAll_str, optVal_shippingAddress, optVal_billingEntity,
        optVal_returnAddress, optVal_shipment,
        parseAll_map parseOrderItem dumpOrderItem parseOrderItem_dump,
        parseAll_map parseReceipt dumpReceipt parseReceipt_dump]

/-! ### Claim theorems -/

/-- C2: the spec requires `SearchOrdersParams` construction to fail for
`limit = 0`, and the repository's own unit test
`test_search_orders_params_validation` asserts a `ValidationError` for it,
but the source declares only `le=100` on `limit` (no lower bound), so
construction with `limit = 0` succeeds; `limit = 101` and `offset = -1` are
rejected as specified, and in-range values are accepted. -/
theorem c2_search_orders_params_limit_bug :
    (mkSearchOrdersParams none none none none none none none none 0 0
        none none none).isSome = true
    ∧ (mkSearchOrdersParams none none none none none none none none 1 0
        none none none).isSome = true
    ∧ (mkSearchOrdersParams none none none none none none none none 100 0
        none none none).isSome = true
    ∧ mkSearchOrdersParams none none none none none none none none 101 0
        none none none = none
    ∧ mkSearchOrdersParams none none none none none none none none 50 (-1)
        none none none = none :=
  ⟨rfl, rfl, rfl, rfl, rfl⟩

/-- C3: a provider 404 on `getOrder` for order id missing-order is classified
as `OrderNotFoundError`, and `get_order_summary` surfaces it as a failure
envelope echoing `order_id = "missing-order"` with `status_code = 404`. -/
theorem c3_get_order_summary_not_found :
    getOrderSummary
        (.raises (.api (getOrderErrorFor "missing-order" 404 []))) "missing-order"
      = .returns (.err { message := "Order not found: missing-order",
                         operation := "get_order_summary for order missing-order",
                         status_code := some 404, response_data := some [],
                         order_id := some "missing-order" })
    ∧ (getOrderErrorFor "missing-order" 404 []).kind = APIErrorKind.orderNotFound :=
  ⟨rfl, rfl⟩

/-- C8: serialising any `OrderDetail` with `model_dump` and re-validating the
dumped form reproduces the original value in every field, including the
nested files of every item. -/
theorem c8_order_detail_roundtrip (o : OrderDetail) :
    parseOrderDetail (dumpOrderDetail o) = some o :=
  parseOrderDetail_dump o

/-- C9: the spec and the repository's own unit test
`test_string_length_validation` require `Catalog` construction to fail on an
empty `catalogUid` or `title`, but the source declares two plain required
`str` fields with no length constraint, so empty strings are accepted;
missing fields are rejected and non-empty values are accepted as claimed. -/
theorem c9_catalog_empty_string_bug :
    mkCatalog (some "") (some "Test") = some { catalogUid := "", title := "Test" }
    ∧ mkCatalog (some "test") (some "") = some { catalogUid := "test", title := "" }
    ∧ mkCatalog (some "cards") none = none
    ∧ mkCatalog none (some "Cards") = none
    ∧ mkCatalog (some "cards") (some "Greeting Cards")
        = some { catalogUid := "cards", title := "Greeting Cards" } :=
  ⟨rfl, rfl, rfl, rfl, rfl⟩

/-- C7 counterexample: the claim says every tool converts unexpected
exceptions into a generic failure envelope, but `search_orders` and
`get_order_summary` catch only `GelatoAPIError`, so an unexpected exception
raised by the client propagates out of both operations instead of producing
an envelope. -/
theorem c7_unexpected_error_counterexample :
    (searchOrders (.raises (.other "boom")) none none none none none none none none
        50 0 none none none).1 = .raises (.other "boom")
    ∧ getOrderSummary (.raises (.other "boom")) "order-1" = .raises (.other "boom") :=
  ⟨rfl, rfl⟩

/-- C4 counterexample: the claim says every unparseable `start_date` string
yields a failure envelope before any network call, but the empty string is
unparseable ISO-8601 (`fromisoformat` rejects it) while `search_orders`
treats it as absent (`if start_date:` is Python truthiness), proceeds to the
network call and returns a success envelope. -/
theorem c4_local_validation_counterexample :
    fromisoformat "" = none
    ∧ soEnvSuccess (searchOrders (.returns ⟨[]⟩) none none none none none none
        (some "") none 50 0 none none none).1 = true
    ∧ (searchOrders (.returns ⟨[]⟩) none none none none none none (some "") none
        50 0 none none none).2 = true :=
  ⟨rfl, rfl, rfl⟩

/-- C1 counterexample: with `limit = 0` (which `search_orders` does not
reject) and an empty provider result, `has_more` is true while the message
does not contain `offset=0`; and in `search_products` a `catalog_uid` that
itself contains the text `offset=51` makes the no-results message contain
`offset={offset+limit}` although `has_more` is false. -/
theorem c1_pagination_counterexample :
    soEnvHasMore (searchOrders (.returns ⟨[]⟩) none none none none none none none none
        0 0 none none none).1 = some true
    ∧ soEnvMessage (searchOrders (.returns ⟨[]⟩) none none none none none none none
        none 0 0 none none none).1 = some "No orders found matching the search criteria"
    ∧ ¬ containsSub "No orders found matching the search criteria"
        ("offset=" ++ toString ((0 : Int) + 0))
    ∧ spEnvHasMore (searchProducts (.returns ⟨[], ⟨[]⟩⟩) "offset=51" none 50 1).1
        = some false
    ∧ spEnvMessage (searchProducts (.returns ⟨[], ⟨[]⟩⟩) "offset=51" none 50 1).1
        = some ("No products found in catalog " ++ sglq ++ "offset=51" ++ sglq)
    ∧ containsSub ("No products found in catalog " ++ sglq ++ "offset=51" ++ sglq)
        ("offset=" ++ toString ((1 : Int) + 50)) := by
  refine ⟨rfl, rfl, by decide, rfl, rfl, by decide⟩

/-- The family of provider `getProduct` response bodies whose `weight` field
is an arbitrary value and whose `dimensions` field is an arbitrary
sub-object. -/
def flexProductObj (uid : String) (attrs : List (String × String)) (w : JValue)
    (dfields : List (String × JValue)) (sup nsup : List String)
    (stock pr : Bool) : JValue :=
  .obj [("productUid", .str uid),
        ("attributes", .obj (attrs.map (fun p => (p.1, JValue.str p.2)))),
        ("weight", w),
        ("supportedCountries", .arr (sup.map .str)),
        ("notSupportedCountries", .arr (nsup.map .str)),
        ("isStockable", .bool stock),
        ("isPrintable", .bool pr),
        ("dimensions", .obj dfields)]

/-- The `ProductDetail` value such a response deserialises to. -/
def flexProductVal (uid : String) (attrs : List (String × String)) (w : JValue)
    (dfields : List (String × JValue)) (sup nsup : List String)
    (stock pr : Bool) : ProductDetail :=
  { productUid := uid, attributes := attrs, weight := w,
    dimensions := some (.obj dfields), supportedCountries := sup,
    notSupportedCountries := nsup, isStockable := some stock,
    isPrintable := some pr, validPageCounts := none }

/-- C5: deserialising a `getProduct` response whose `weight` is an arbitrary
value (for instance the string lightweight) and whose `dimensions` sub-object
carries arbitrary values (for instance a string-valued `Assemblytype`)
succeeds, and the success envelope of `get_product` preserves both verbatim:
the dumped data still carries exactly the same `weight` and `dimensions`
values. -/
theorem c5_flexible_weight_dimensions (uid : String) (attrs : List (String × String))
    (w : JValue) (dfields : List (String × JValue)) (sup nsup : List String)
    (stock pr : Bool) :
    parseProductDetail (flexProductObj uid attrs w dfields sup nsup stock pr)
      = some (flexProductVal uid attrs w dfields sup nsup stock pr)
    ∧ (flexProductVal uid attrs w dfields sup nsup stock pr).weight = w
    ∧ (flexProductVal uid attrs w dfields sup nsup stock pr).dimensions
        = some (.obj dfields)
    ∧ gpEnvData (getProduct
        (.returns (flexProductVal uid attrs w dfields sup nsup stock pr)) uid)
      = some (dumpProductDetail (flexProductVal uid attrs w dfields sup nsup stock pr))
    ∧ jvField (dumpProductDetail (flexProductVal uid attrs w dfields sup nsup stock pr))
        "weight" = some w
    ∧ jvField (dumpProductDetail (flexProductVal uid attrs w dfields sup nsup stock pr))
        "dimensions" = some (.obj dfields) := by
  refine ⟨?_, rfl, rfl, rfl, rfl, rfl⟩
  simp [flexProductObj, flexProductVal, parseProductDetail, reqField, optField,
        jlookup, asStr, asStrPairs, asStrList, asBool, optVal, JValue.isNull,
        parseStrPairs_map, parseAll_str]

/-- C6: a date filter written with a trailing Z and the same instant written
with an explicit +00:00 offset normalise to the same string, hence parse to
identical date values; consequently `search_orders` behaves identically on
the two spellings whenever the date parses. -/
theorem c6_date_normalization :
    (∀ s : String, parsedDate (s ++ "Z") = parsedDate (s ++ "+00:00"))
    ∧ (∀ (client : PyOutcome SearchOrdersResponse)
        (ot : Option (List OrderType))
        (cs cur fs fu : Option (List String)) (st : Option String)
        (ed : Option String) (lim off : Int)
        (a b c : Option (List String)) (s : String),
        parsedDate (s ++ "Z") ≠ none →
        searchOrders client ot cs cur fs fu st (some (s ++ "Z")) ed lim off a b c
          = searchOrders client ot cs cur fs fu st (some (s ++ "+00:00")) ed lim off
              a b c) := by
  have hz : ∀ s : String, parsedDate (s ++ "Z") = parsedDate (s ++ "+00:00") := by
    intro s
    unfold parsedDate
    rw [replaceZ_append, replaceZ_append, replaceZ_zsuffix, replaceZ_utcsuffix]
  refine ⟨hz, ?_⟩
  intro client ot cs cur fs fu st ed lim off a b c s h
  obtain ⟨d, hd⟩ := Option.ne_none_iff_exists'.mp h
  have hd2 : parsedDate (s ++ "+00:00") = some d := by rw [← hz s]; exact hd
  have hpd : parseDateArg "start_date" "2024-01-01T00:00:00Z" (some (s ++ "Z"))
      = parseDateArg "start_date" "2024-01-01T00:00:00Z" (some (s ++ "+00:00")) := by
    simp only [parseDateArg]
    rw [if_neg (append_singleton_ne_empty s "Z" (by decide)),
        if_neg (append_singleton_ne_empty s "+00:00" (by decide)), hd, hd2]
  simp only [searchOrders]
  rw [hpd]

/-- Witness for C6 at the concrete instant 2024-01-01T00:00:00. -/
theorem c6_date_normalization_witness :
    parsedDate ("2024-01-01T00:00:00" ++ "Z") ≠ none
    ∧ searchOrders (PyOutcome.returns ⟨[]⟩) none none none none none none
        (some ("2024-01-01T00:00:00" ++ "Z")) none 50 0 none none none
      = searchOrders (PyOutcome.returns ⟨[]⟩) none none none none none none
        (some ("2024-01-01T00:00:00" ++ "+00:00")) none 50 0 none none none :=
  ⟨by decide,
   c6_date_normalization.2 (PyOutcome.returns ⟨[]⟩) none none none none none none
     none 50 0 none none none "2024-01-01T00:00:00" (by decide)⟩

/-- C10: every success envelope of `search_orders` and `search_products`
reports `pagination.count` equal to the length of the returned items list and
echoes the offset and limit the caller supplied. -/
theorem c10_pagination_echo :
    (∀ (client : PyOutcome SearchOrdersResponse) (ot : Option (List OrderType))
        (cs cur fs fu : Option (List String)) (st sd ed : Option String)
        (lim off : Int) (a b c : Option (List String))
        (data : SearchOrdersData) (msg : String) (nw : Bool),
        searchOrders client ot cs cur fs fu st sd ed lim off a b c
          = (.returns (.ok data msg), nw) →
        data.pagination.count = data.orders.length
        ∧ data.pagination.offset = off ∧ data.pagination.limit = lim)
    ∧ (∀ (client : PyOutcome SearchProductsResponse) (uid : String)
        (af : Option (List (String × List String))) (lim off : Int)
        (data : SearchProductsData) (msg : String) (nw : Bool),
        searchProducts client uid af lim off = (.returns (.ok data msg), nw) →
        data.pagination.count = data.products.length
        ∧ data.pagination.offset = off ∧ data.pagination.limit = lim) := by
  constructor
  · intro client ot cs cur fs fu st sd ed lim off a b c data msg nw h
    simp only [searchOrders] at h
    repeat' split at h
    all_goals
      first
      | (simp only [Prod.mk.injEq, PyOutcome.returns.injEq,
            SearchOrdersEnvelope.ok.injEq] at h
         obtain ⟨⟨hD, hM⟩, hnw⟩ := h
         subst hD
         simp)
      | simp at h
  · intro client uid af lim off data msg nw h
    simp only [searchProducts] at h
    repeat' split at h
    all_goals
      first
      | (simp only [Prod.mk.injEq, PyOutcome.returns.injEq,
            SearchProductsEnvelope.ok.injEq] at h
         obtain ⟨⟨hD, hM⟩, hnw⟩ := h
         subst hD
         simp)
      | simp at h

/-- Witness for C10 at a concrete successful call. -/
theorem c10_pagination_echo_witness :
    searchOrders (PyOutcome.returns ⟨[]⟩) none none none none none none none none
        50 0 none none none
      = (.returns (.ok { orders := [],
                         pagination := { count := 0, offset := 0, limit := 50,
                                         has_more := false },
                         search_params :=
                           { channels := none, countries := none, currencies := none,
                             endDate := none, financialStatuses := none,
                             fulfillmentStatuses := none, ids := none,
                             limit := some 50, offset := some 0,
                             orderReferenceId := none, orderReferenceIds := none,
                             orderTypes := none, search := none, startDate := none,
                             storeIds := none } }
                    "No orders found matching the search criteria"), true)
    ∧ ((0 : Nat) = ([] : List JValue).length ∧ (0 : Int) = 0 ∧ (50 : Int) = 50) :=
  ⟨rfl, c10_pagination_echo.1 (PyOutcome.returns ⟨[]⟩) none none none none none none
    none none 50 0 none none none _ _ _ rfl⟩

/-- C1 amended: for every successful `search_orders` call with `limit ≥ 1`
(the tool does not reject `limit ≤ 0`, and with `limit = 0` an empty result
page sets `has_more` while the no-results message carries no offset hint) and
for every successful `search_products` call whose `catalog_uid` does not
itself contain an equals sign (a `catalog_uid` containing the literal text
`offset={offset+limit}` re-appears inside the no-results message), `has_more`
is true exactly when the returned count equals `limit`, and the message
contains `offset={offset+limit}` exactly when `has_more` is true. -/
theorem c1_pagination_amended :
    (∀ (client : PyOutcome SearchOrdersResponse) (ot : Option (List OrderType))
        (cs cur fs fu : Option (List String)) (st sd ed : Option String)
        (lim off : Int) (a b c : Option (List String))
        (data : SearchOrdersData) (msg : String) (nw : Bool),
        searchOrders client ot cs cur fs fu st sd ed lim off a b c
          = (.returns (.ok data msg), nw) →
        1 ≤ lim →
        (data.pagination.has_more = true ↔ (data.pagination.count : Int) = lim)
        ∧ (containsSub msg ("offset=" ++ toString (off + lim))
            ↔ data.pagination.has_more = true))
    ∧ (∀ (client : PyOutcome SearchProductsResponse) (uid : String)
        (af : Option (List (String × List String))) (lim off : Int)
        (data : SearchProductsData) (msg : String) (nw : Bool),
        searchProducts client uid af lim off = (.returns (.ok data msg), nw) →
        '=' ∉ uid.data →
        (data.pagination.has_more = true ↔ (data.pagination.count : Int) = lim)
        ∧ (containsSub msg ("offset=" ++ toString (off + lim))
            ↔ data.pagination.has_more = true)) := by
  have hsplit1 : (" orders (may have more results, use offset=" : String).data
      = (" orders (may have more results, use " : String).data
        ++ ("offset=" : String).data := by decide
  have hsplit2 : (" (may have more results, use offset=" : String).data
      = (" (may have more results, use " : String).data
        ++ ("offset=" : String).data := by decide
  constructor
  · intro client ot cs cur fs fu st sd ed lim off a b c data msg nw h hlim
    simp only [searchOrders] at h
    split at h
    · simp at h
    split at h
    · simp at h
    split at h
    · simp at h
    split at h
    · simp at h
    · simp at h
    split at h
    case _ hz =>
      simp only [Prod.mk.injEq, PyOutcome.returns.injEq,
        SearchOrdersEnvelope.ok.injEq] at h
      obtain ⟨⟨hD, hM⟩, hnw⟩ := h
      subst hD; subst hM
      refine ⟨by simp [beq_iff_eq], ?_⟩
      apply iff_of_false
      · exact not_containsSub _ _ (eq_mem_needle _) (by decide)
      · simp [beq_iff_eq, hz]
        omega
    split at h
    case _ hz hq =>
      simp only [Prod.mk.injEq, PyOutcome.returns.injEq,
        SearchOrdersEnvelope.ok.injEq] at h
      obtain ⟨⟨hD, hM⟩, hnw⟩ := h
      subst hD; subst hM
      refine ⟨by simp [beq_iff_eq], ?_⟩
      apply iff_of_true
      · rename_i result
        apply containsSub_intro _ _
          (("Found " ++ Nat.repr (List.map dumpOrderSummary result.orders).length
            ++ " orders (may have more results, use ").data)
          ((" to get next page)").data)
        simp [String.data_append, List.append_assoc, hsplit1]
      · show ((_ : Int) == lim) = true
        exact beq_iff_eq.mpr hq
    case _ hz hq =>
      simp only [Prod.mk.injEq, PyOutcome.returns.injEq,
        SearchOrdersEnvelope.ok.injEq] at h
      obtain ⟨⟨hD, hM⟩, hnw⟩ := h
      subst hD; subst hM
      refine ⟨by simp [beq_iff_eq], ?_⟩
      apply iff_of_false
      · apply not_containsSub _ _ (eq_mem_needle _)
        simp only [String.data_append, List.mem_append, not_or]
        exact ⟨⟨by decide, eq_not_mem_natRepr _⟩, by decide⟩
      · simpa [beq_iff_eq] using hq
  · intro client uid af lim off data msg nw h huid
    simp only [searchProducts] at h
    split at h
    · simp at h
    rename_i hlims
    split at h
    · simp at h
    split at h
    · simp at h
    split at h
    · split at h
      · simp at h
      · simp at h
    · simp at h
    have hlim : 1 ≤ lim := by
      simp only [Bool.or_eq_true, decide_eq_true_eq, not_or] at hlims
      omega
    split at h
    case _ hz =>
      split at h
      case _ hf =>
        simp only [Prod.mk.injEq, PyOutcome.returns.injEq,
          SearchProductsEnvelope.ok.injEq] at h
        obtain ⟨⟨hD, hM⟩, hnw⟩ := h
        subst hD; subst hM
        refine ⟨by simp [beq_iff_eq], ?_⟩
        apply iff_of_false
        · apply not_containsSub _ _ (eq_mem_needle _)
          simp only [String.data_append, List.mem_append, not_or]
          exact ⟨⟨⟨⟨by decide, by decide⟩, huid⟩, by decide⟩, by decide⟩
        · simp [beq_iff_eq, hz]
          omega
      case _ hf =>
        simp only [Prod.mk.injEq, PyOutcome.returns.injEq,
          SearchProductsEnvelope.ok.injEq] at h
        obtain ⟨⟨hD, hM⟩, hnw⟩ := h
        subst hD; subst hM
        refine ⟨by simp [beq_iff_eq], ?_⟩
        apply iff_of_false
        · apply not_containsSub _ _ (eq_mem_needle _)
          simp only [String.data_append, List.mem_append, not_or]
          exact ⟨⟨⟨by decide, by decide⟩, huid⟩, by decide⟩
        · simp [beq_iff_eq, hz]
          omega
    split at h
    case _ hz hq =>
      simp only [Prod.mk.injEq, PyOutcome.returns.injEq,
        SearchProductsEnvelope.ok.injEq] at h
      obtain ⟨⟨hD, hM⟩, hnw⟩ := h
      subst hD; subst hM
      refine ⟨by simp [beq_iff_eq], ?_⟩
      apply iff_of_true
      · rename_i result
        apply containsSub_intro _ _
          (("Found " ++ Nat.repr (List.map dumpProduct result.products).length
            ++ " products in catalog " ++ sglq ++ uid ++ sglq
            ++ " (may have more results, use ").data)
          ((" to get next page)").data)
        simp [String.data_append, List.append_assoc, hsplit2]
      · show ((_ : Int) == lim) = true
        exact beq_iff_eq.mpr hq
    case _ hz hq =>
      simp only [Prod.mk.injEq, PyOutcome.returns.injEq,
        SearchProductsEnvelope.ok.injEq] at h
      obtain ⟨⟨hD, hM⟩, hnw⟩ := h
      subst hD; subst hM
      refine ⟨by simp [beq_iff_eq], ?_⟩
      apply iff_of_false
      · apply not_containsSub _ _ (eq_mem_needle _)
        simp only [String.data_append, List.mem_append, not_or]
        exact ⟨⟨⟨⟨⟨by decide, eq_not_mem_natRepr _⟩, by decide⟩, by decide⟩, huid⟩,
          by decide⟩
      · simpa [beq_iff_eq] using hq

/-- A concrete order summary used to instantiate witnesses. -/
def sampleOrder : OrderSummary :=
  { id := "order-1", orderType := .order, orderReferenceId := "ref-1",
    customerReferenceId := "cust-1", fulfillmentStatus := "created",
    financialStatus := "paid", currency := some "USD", channel := none,
    country := none, firstName := none, lastName := none, itemsCount := none,
    totalInclVat := none, storeId := none, connectedOrderIds := [],
    createdAt := ⟨2024, 1, 1, 10, 0, 0, some 0⟩,
    updatedAt := ⟨2024, 1, 1, 12, 0, 0, some 0⟩, orderedAt := none }

/-- The `SearchOrdersParams` value `search_orders` builds for limit 1 and
offset 0 with no filters. -/
def sampleParams1 : SearchOrdersParams :=
  { channels := none, countries := none, currencies := none, endDate := none,
    financialStatuses := none, fulfillmentStatuses := none, ids := none,
    limit := some 1, offset := some 0, orderReferenceId := none,
    orderReferenceIds := none, orderTypes := none, search := none,
    startDate := none, storeIds := none }

def sampleOrdersData1 : SearchOrdersData :=
  { orders := [dumpOrderSummary sampleOrder],
    pagination := { count := 1, offset := 0, limit := 1, has_more := true },
    search_params := sampleParams1 }

/-- A concrete product used to instantiate witnesses. -/
def sampleProduct : Product :=
  { productUid := "p-1", attributes := [], weight := .str "w",
    dimensions := none, supportedCountries := [] }

def sampleProductsData1 : SearchProductsData :=
  { products := [dumpProduct sampleProduct], hits := dumpFilterHits ⟨[]⟩,
    pagination := { count := 1, offset := 0, limit := 1, has_more := true },
    catalog_uid := "posters", attribute_filters := none, limit := 1, offset := 0 }

/-- Witness for C1 amended: a full page of one result with limit 1 in each
tool, where `has_more` is true and the message carries `offset=1`. -/
theorem c1_pagination_amended_witness :
    (searchOrders (PyOutcome.returns ⟨[sampleOrder]⟩) none none none none none none
        none none 1 0 none none none
      = (.returns (.ok sampleOrdersData1
          "Found 1 orders (may have more results, use offset=1 to get next page)"),
         true))
    ∧ (1 : Int) ≤ 1
    ∧ (containsSub
        "Found 1 orders (may have more results, use offset=1 to get next page)"
        ("offset=" ++ toString ((0 : Int) + 1))
       ↔ sampleOrdersData1.pagination.has_more = true)
    ∧ (searchProducts (PyOutcome.returns ⟨[sampleProduct], ⟨[]⟩⟩) "posters" none 1 0
      = (.returns (.ok sampleProductsData1
          ("Found 1 products in catalog " ++ sglq ++ "posters" ++ sglq ++
            " (may have more results, use offset=1 to get next page)")), true))
    ∧ '=' ∉ ("posters" : String).data
    ∧ (containsSub
        ("Found 1 products in catalog " ++ sglq ++ "posters" ++ sglq ++
          " (may have more results, use offset=1 to get next page)")
        ("offset=" ++ toString ((0 : Int) + 1))
       ↔ sampleProductsData1.pagination.has_more = true) :=
  ⟨rfl, by decide,
   (c1_pagination_amended.1 (PyOutcome.returns ⟨[sampleOrder]⟩) none none none none
     none none none none 1 0 none none none sampleOrdersData1 _ true rfl
     (by decide)).2,
   rfl, by decide,
   (c1_pagination_amended.2 (PyOutcome.returns ⟨[sampleProduct], ⟨[]⟩⟩) "posters"
     none 1 0 sampleProductsData1 _ true rfl (by decide)).2⟩

/-- C4 amended: for every locally invalid caller input - a NON-EMPTY
`start_date` or `end_date` string that is not parseable ISO-8601 in
`search_orders` (the empty string is treated as an absent argument by the
Python truthiness check), or a `limit` outside 1..100 or `offset < 0` in
`search_products` - the operation returns a failure envelope whose message
names the offending field and the expected format or range, and the client
operation is never invoked. -/
theorem c4_local_validation_amended :
    (∀ (client : PyOutcome SearchOrdersResponse) (ot : Option (List OrderType))
        (cs cur fs fu : Option (List String)) (st ed : Option String)
        (lim off : Int) (a b c : Option (List String)) (s : String),
        s ≠ "" → parsedDate s = none →
        searchOrders client ot cs cur fs fu st (some s) ed lim off a b c
          = (.returns (.err
              { message := "Invalid " ++ "start_date" ++ " format: " ++ s ++
                  ". Use ISO 8601 format like " ++ sglq ++
                  "2024-01-01T00:00:00Z" ++ sglq,
                operation := "search_orders" }), false)
        ∧ containsSub ("Invalid " ++ "start_date" ++ " format: " ++ s
            ++ ". Use ISO 8601 format like " ++ sglq ++ "2024-01-01T00:00:00Z"
            ++ sglq) "start_date"
        ∧ containsSub ("Invalid " ++ "start_date" ++ " format: " ++ s
            ++ ". Use ISO 8601 format like " ++ sglq ++ "2024-01-01T00:00:00Z"
            ++ sglq) "ISO 8601")
    ∧ (∀ (client : PyOutcome SearchOrdersResponse) (ot : Option (List OrderType))
        (cs cur fs fu : Option (List String)) (st : Option String)
        (lim off : Int) (a b c : Option (List String)) (s : String),
        s ≠ "" → parsedDate s = none →
        searchOrders client ot cs cur fs fu st none (some s) lim off a b c
          = (.returns (.err
              { message := "Invalid " ++ "end_date" ++ " format: " ++ s ++
                  ". Use ISO 8601 format like " ++ sglq ++
                  "2024-12-31T23:59:59Z" ++ sglq,
                operation := "search_orders" }), false)
        ∧ containsSub ("Invalid " ++ "end_date" ++ " format: " ++ s
            ++ ". Use ISO 8601 format like " ++ sglq ++ "2024-12-31T23:59:59Z"
            ++ sglq) "end_date"
        ∧ containsSub ("Invalid " ++ "end_date" ++ " format: " ++ s
            ++ ". Use ISO 8601 format like " ++ sglq ++ "2024-12-31T23:59:59Z"
            ++ sglq) "ISO 8601")
    ∧ (∀ (client : PyOutcome SearchProductsResponse) (uid : String)
        (af : Option (List (String × List String))) (lim off : Int),
        lim < 1 ∨ lim > 100 →
        searchProducts client uid af lim off
          = (.returns (.err
              { message := "Invalid limit: " ++ toString lim ++
                  ". Must be between 1 and 100.",
                operation := "search_products", catalog_uid := some uid }), false)
        ∧ containsSub ("Invalid limit: " ++ toString lim
            ++ ". Must be between 1 and 100.") "limit"
        ∧ containsSub ("Invalid limit: " ++ toString lim
            ++ ". Must be between 1 and 100.") "between 1 and 100")
    ∧ (∀ (client : PyOutcome SearchProductsResponse) (uid : String)
        (af : Option (List (String × List String))) (lim off : Int),
        1 ≤ lim → lim ≤ 100 → off < 0 →
        searchProducts client uid af lim off
          = (.returns (.err
              { message := "Invalid offset: " ++ toString off ++
                  ". Must be 0 or greater.",
                operation := "search_products", catalog_uid := some uid }), false)
        ∧ containsSub ("Invalid offset: " ++ toString off
            ++ ". Must be 0 or greater.") "offset"
        ∧ containsSub ("Invalid offset: " ++ toString off
            ++ ". Must be 0 or greater.") "0 or greater") := by
  have hiso1 : (". Use ISO 8601 format like " : String).data
      = (". Use " : String).data ++ (("ISO 8601" : String).data
        ++ (" format like " : String).data) := by decide
  refine ⟨?_, ?_, ?_, ?_⟩
  · intro client ot cs cur fs fu st ed lim off a b c s hne hbad
    refine ⟨?_, ?_, ?_⟩
    · simp only [searchOrders, parseDateArg, if_neg hne, hbad]
    · apply containsSub_intro _ _ ("Invalid " : String).data
        ((" format: " ++ s ++ ". Use ISO 8601 format like " ++ sglq
          ++ "2024-01-01T00:00:00Z" ++ sglq).data)
      simp [String.data_append, List.append_assoc]
    · apply containsSub_intro _ _
        (("Invalid " ++ "start_date" ++ " format: " ++ s ++ ". Use ").data)
        ((" format like " ++ sglq ++ "2024-01-01T00:00:00Z" ++ sglq).data)
      simp [String.data_append, List.append_assoc, hiso1]
  · intro client ot cs cur fs fu st lim off a b c s hne hbad
    refine ⟨?_, ?_, ?_⟩
    · simp only [searchOrders, parseDateArg, if_neg hne, hbad]
    · apply containsSub_intro _ _ ("Invalid " : String).data
        ((" format: " ++ s ++ ". Use ISO 8601 format like " ++ sglq
          ++ "2024-12-31T23:59:59Z" ++ sglq).data)
      simp [String.data_append, List.append_assoc]
    · apply containsSub_intro _ _
        (("Invalid " ++ "end_date" ++ " format: " ++ s ++ ". Use ").data)
        ((" format like " ++ sglq ++ "2024-12-31T23:59:59Z" ++ sglq).data)
      simp [String.data_append, List.append_assoc, hiso1]
  · intro client uid af lim off hbad
    have hcond : (decide (lim < 1) || decide (lim > 100)) = true := by
      rcases hbad with hb | hb <;> simp [hb]
    refine ⟨?_, ?_, ?_⟩
    · simp only [searchProducts, hcond, if_pos]
    · apply containsSub_intro _ _ ("Invalid " : String).data
        ((": " ++ toString lim ++ ". Must be between 1 and 100.").data)
      have hl : ("Invalid limit: " : String).data
          = ("Invalid " : String).data ++ (("limit" : String).data
            ++ (": " : String).data) := by decide
      simp [String.data_append, List.append_assoc, hl]
    · apply containsSub_intro _ _
        (("Invalid limit: " ++ toString lim ++ ". Must be ").data)
        (("." : String).data)
      have hr : (". Must be between 1 and 100." : String).data
          = (". Must be " : String).data ++ (("between 1 and 100" : String).data
            ++ ("." : String).data) := by decide
      simp [String.data_append, List.append_assoc, hr]
  · intro client uid af lim off h1 h2 h3
    have hcond : (decide (lim < 1) || decide (lim > 100)) = false := by
      simp
      omega
    refine ⟨?_, ?_, ?_⟩
    · simp only [searchProducts, hcond, Bool.false_eq_true, if_false, if_pos h3]
    · apply containsSub_intro _ _ ("Invalid " : String).data
        ((": " ++ toString off ++ ". Must be 0 or greater.").data)
      have hl : ("Invalid offset: " : String).data
          = ("Invalid " : String).data ++ (("offset" : String).data
            ++ (": " : String).data) := by decide
      simp [String.data_append, List.append_assoc, hl]
    · apply containsSub_intro _ _
        (("Invalid offset: " ++ toString off ++ ". Must be ").data)
        (("." : String).data)
      have hr : (". Must be 0 or greater." : String).data
          = (". Must be " : String).data ++ (("0 or greater" : String).data
            ++ ("." : String).data) := by decide
      simp [String.data_append, List.append_assoc, hr]

/-- Witness for C4 amended at concrete invalid inputs. -/
theorem c4_local_validation_amended_witness :
    ("not-a-date" ≠ "" ∧ parsedDate "not-a-date" = none)
    ∧ (searchOrders (PyOutcome.returns ⟨[]⟩) none none none none none none
        (some "not-a-date") none 50 0 none none none).2 = false
    ∧ (searchOrders (PyOutcome.returns ⟨[]⟩) none none none none none none
        none (some "not-a-date") 50 0 none none none).2 = false
    ∧ ((0 : Int) < 1 ∨ (0 : Int) > 100)
    ∧ (searchProducts (PyOutcome.returns ⟨[], ⟨[]⟩⟩) "posters" none 0 0).2 = false
    ∧ ((1 : Int) ≤ 50 ∧ (50 : Int) ≤ 100 ∧ (-1 : Int) < 0)
    ∧ (searchProducts (PyOutcome.returns ⟨[], ⟨[]⟩⟩) "posters" none 50 (-1)).2
        = false := by
  refine ⟨⟨by decide, rfl⟩, ?_, ?_, Or.inl (by decide), ?_,
    ⟨by decide, by decide, by decide⟩, ?_⟩
  · exact congrArg Prod.snd ((c4_local_validation_amended.1
      (PyOutcome.returns ⟨[]⟩) none none none none none none none 50 0 none none
      none "not-a-date" (by decide) rfl).1)
  · exact congrArg Prod.snd ((c4_local_validation_amended.2.1
      (PyOutcome.returns ⟨[]⟩) none none none none none none 50 0 none none
      none "not-a-date" (by decide) rfl).1)
  · exact congrArg Prod.snd ((c4_local_validation_amended.2.2.1
      (PyOutcome.returns ⟨[], ⟨[]⟩⟩) "posters" none 0 0
      (Or.inl (by decide))).1)
  · exact congrArg Prod.snd ((c4_local_validation_amended.2.2.2
      (PyOutcome.returns ⟨[], ⟨[]⟩⟩) "posters" none 50 (-1)
      (by decide) (by decide) (by decide)).1)

/-- C7 amended: `search_products` and `get_product` convert any unexpected
exception at the operation boundary into a generic failure envelope carrying
the operation name and an unexpected-error message, but `search_orders` and
`get_order_summary` catch only `GelatoAPIError`, so an unexpected exception
propagates out of those two operations. -/
theorem c7_unexpected_error_amended :
    (∀ (m uid : String) (af : Option (List (String × List String)))
        (lim off : Int), 1 ≤ lim → lim ≤ 100 → 0 ≤ off →
        searchProducts (.raises (.other m)) uid af lim off
          = (.returns (.err
              { message := "Unexpected error searching products: " ++ m,
                operation := "search_products", catalog_uid := some uid }), true)
        ∧ containsSub ("Unexpected error searching products: " ++ m)
            "Unexpected error")
    ∧ (∀ (m pu : String),
        getProduct (.raises (.other m)) pu
          = .returns (.err
              { message := "Unexpected error retrieving product: " ++ m,
                operation := "get_product", product_uid := some pu })
        ∧ containsSub ("Unexpected error retrieving product: " ++ m)
            "Unexpected error")
    ∧ (∀ (m : String) (ot : Option (List OrderType))
        (cs cur fs fu : Option (List String)) (st : Option String)
        (lim off : Int) (a b c : Option (List String)),
        lim ≤ 100 → 0 ≤ off →
        (searchOrders (.raises (.other m)) ot cs cur fs fu st none none lim off
          a b c).1 = .raises (.other m))
    ∧ (∀ (m oid : String),
        getOrderSummary (.raises (.other m)) oid = .raises (.other m)) := by
  have hu1 : ("Unexpected error searching products: " : String).data
      = ("Unexpected error" : String).data
        ++ (" searching products: " : String).data := by decide
  have hu2 : ("Unexpected error retrieving product: " : String).data
      = ("Unexpected error" : String).data
        ++ (" retrieving product: " : String).data := by decide
  refine ⟨?_, ?_, ?_, ?_⟩
  · intro m uid af lim off h1 h2 h3
    have hcond : (decide (lim < 1) || decide (lim > 100)) = false := by
      simp
      omega
    refine ⟨?_, ?_⟩
    · simp only [searchProducts, hcond, Bool.false_eq_true, if_false,
        if_neg (by omega : ¬ off < 0), mkSearchProductsRequest,
        if_pos (by simp [h2, h3] : (decide (lim ≤ 100) && decide (0 ≤ off)) = true)]
      rfl
    · apply containsSub_intro _ _ ([] : List Char)
        ((" searching products: " : String).data ++ m.data)
      simp [String.data_append, List.append_assoc, hu1]
  · intro m pu
    refine ⟨rfl, ?_⟩
    apply containsSub_intro _ _ ([] : List Char)
      ((" retrieving product: " : String).data ++ m.data)
    simp [String.data_append, List.append_assoc, hu2]
  · intro m ot cs cur fs fu st lim off a b c h2 h3
    simp only [searchOrders, parseDateArg, mkSearchOrdersParams,
      searchOrdersParamsValid,
      if_pos (by simp [h2, h3] : (decide (lim ≤ 100) && decide (0 ≤ off)) = true)]
  · intro m oid
    rfl

/-- Witness for C7 amended at a concrete unexpected exception. -/
theorem c7_unexpected_error_amended_witness :
    ((1 : Int) ≤ 50 ∧ (50 : Int) ≤ 100 ∧ (0 : Int) ≤ 0)
    ∧ containsSub ("Unexpected error searching products: " ++ "boom")
        "Unexpected error"
    ∧ containsSub ("Unexpected error retrieving product: " ++ "boom")
        "Unexpected error"
    ∧ (searchOrders (.raises (.other "boom")) none none none none none none none
        none 50 0 none none none).1 = .raises (.other "boom")
    ∧ getOrderSummary (.raises (.other "boom")) "order-1"
        = .raises (.other "boom") := by
  refine ⟨⟨by decide, by decide, by decide⟩, ?_, ?_, ?_, ?_⟩
  · exact (c7_unexpected_error_amended.1 "boom" "posters" none 50 0 (by decide)
      (by decide) (by decide)).2
  · exact (c7_unexpected_error_amended.2.1 "boom" "p-1").2
  · exact c7_unexpected_error_amended.2.2.1 "boom" none none none none none none
      50 0 none none none (by decide) (by decide)
  · exact c7_unexpected_error_amended.2.2.2 "boom" "order-1"
